import Mathlib

/-!
Verification of the e-ink-weather firmware core: a shallow embedding of the
event-driven task orchestration subsystem (event bus, shared state store,
orchestrator dispatch, interruptible scheduler, network download handling and
battery sampling), translated from the Rust sources under `src/`.

Machine integers (`u8`, `u16`, `u64`) are modelled as `Nat`; none of the
embedded computations can overflow their Rust widths on the inputs the
theorems quantify over (delays fit in `u64`, ADC samples are 12-bit values in
`u16`, percentages fit in `u8`).  `f32` arithmetic in the battery-percentage
conversion is modelled by exact rational arithmetic over `ℚ`.
-/

namespace EInkWeather

/-- Application events (src/event.rs, `enum Event`): a closed set of tagged
variants with no payload. -/
inductive Event
  | Key0Pressed
  | Key1Pressed
  | Key2Pressed
  | TimerExpired
  | NetworkConnected
  | NetworkDisconnected
  | ImageDownloaded
  | ImageDownloadFailed
  | SchedulerUpdateRequested
deriving DecidableEq, Repr

/-- Shared application state (src/state.rs, `struct AppState`). -/
structure AppState where
  next_update_delay_secs : Nat
  battery_percent : Nat
  wifi_connected : Bool
  last_download_success : Bool
deriving DecidableEq, Repr

/-- Boot-time state (src/state.rs, `AppState::new`): the configured default
delay in minutes times 60, other fields zero / false. -/
def AppState.new (default_update_interval_minutes : Nat) : AppState :=
  { next_update_delay_secs := default_update_interval_minutes * 60
  , battery_percent := 0
  , wifi_connected := false
  , last_download_success := false }

/-- Image buffer size (src/network.rs line 16): 600x448 pixels at 4 bits per
pixel. -/
def IMAGE_BUFFER_SIZE : Nat := 134400

/-- The outcome of the HTTP exchange as observed by `download_image`: whether
each I/O step succeeds, the response status, the response headers (name/value
pairs whose values decoded as UTF-8; a value that would fail UTF-8 decoding is
simply not listed), and the body length delivered by `read_to_end`. -/
structure HttpExchange where
  request_ok : Bool
  send_ok : Bool
  status : Nat
  headers : List (String × String)
  body_ok : Bool
  body_len : Nat

/-- Network-side effects performed by `download_image`, in order: creating the
TCP/DNS/HTTP client state, issuing the GET request, sending it, reading the
body. -/
inductive NetAction
  | createClient
  | httpRequest
  | sendRequest
  | readBody
deriving DecidableEq, Repr

/-- Header scan of src/network.rs lines 57-70: walk the headers, and at the
FIRST name matching `x-next-delay` case-insensitively, try to parse the value
as an unsigned integer and `break` — a later well-formed header is never
consulted once a first match (even unparseable) is seen. -/
def findNextDelay : List (String × String) → Option Nat
  | [] => none
  | (name, value) :: rest =>
    if name.toLower = "x-next-delay" then value.toNat? else findNextDelay rest

/-- Embedding of `download_image` (src/network.rs lines 21-94).  Returns the
`Result` together with the ordered list of network-side actions it performed.
The buffer-size guard (lines 25-27) runs before the client is created; a body
whose length differs from `IMAGE_BUFFER_SIZE` is only warned about (lines
86-91) and the function still returns `Ok` with the body and the parsed
`X-Next-Delay` header. -/
def download_image (buffer_len : Nat) (ex : HttpExchange) :
    Except String (Nat × Option Nat) × List NetAction :=
  if buffer_len < IMAGE_BUFFER_SIZE then
    (Except.error "Buffer too small", [])
  else if ex.request_ok = false then
    (Except.error "Failed to create HTTP request",
     [NetAction.createClient, NetAction.httpRequest])
  else if ex.send_ok = false then
    (Except.error "Failed to send HTTP request",
     [NetAction.createClient, NetAction.httpRequest, NetAction.sendRequest])
  else if ex.status ≠ 200 then
    (Except.error "HTTP request failed",
     [NetAction.createClient, NetAction.httpRequest, NetAction.sendRequest])
  else if ex.body_ok = false then
    (Except.error "Failed to read response body",
     [NetAction.createClient, NetAction.httpRequest, NetAction.sendRequest,
      NetAction.readBody])
  else
    (Except.ok (ex.body_len, findNextDelay ex.headers),
     [NetAction.createClient, NetAction.httpRequest, NetAction.sendRequest,
      NetAction.readBody])

/-- Embedding of the download-outcome handling of `network_manager`
(src/task/network.rs lines 201-246).  On `Ok`: inside one state-store critical
section, read the old delay, store the server delay (or the compiled-in
default `UPDATE_INTERVAL_MINUTES * 60` when the header was absent), set
`last_download_success := true` and record whether the delay changed; then
publish `ImageDownloaded`, followed by `SchedulerUpdateRequested` exactly when
the delay changed.  On `Err`: set `last_download_success := false` and publish
`ImageDownloadFailed`.  Returns the updated state and the events published, in
order. -/
def handle_download (updateIntervalMinutes : Nat) (st : AppState)
    (res : Except String (Nat × Option Nat)) : AppState × List Event :=
  match res with
  | Except.ok (_, server_delay) =>
    let old_delay := st.next_update_delay_secs
    let new_delay :=
      match server_delay with
      | some d => d
      | none => updateIntervalMinutes * 60
    let st1 := { st with next_update_delay_secs := new_delay
                       , last_download_success := true }
    let delay_changed : Bool := old_delay != st1.next_update_delay_secs
    (st1, [Event.ImageDownloaded] ++
      (if delay_changed then [Event.SchedulerUpdateRequested] else []))
  | Except.error _ =>
    ({ st with last_download_success := false }, [Event.ImageDownloadFailed])

/-- Which branch of the scheduler's `select` resolves first (src/task/
orchestrator.rs lines 97-101): the delay timer or the interrupt wake
signal. -/
inductive RaceWinner
  | timer
  | interrupt
deriving DecidableEq, Repr

/-- One iteration of the scheduler loop as observed from outside: the value of
`next_update_delay_secs` read from the state store at the top of the
iteration, and which arm of the race won. -/
structure SchedIteration where
  state_delay : Nat
  winner : RaceWinner
deriving DecidableEq, Repr

/-- The duration the scheduler arms its timer with in an iteration
(src/task/orchestrator.rs lines 86-98): exactly the delay re-read from the
state store at the top of that same iteration. -/
def scheduler_wait_duration (it : SchedIteration) : Nat := it.state_delay

/-- Events published by one scheduler iteration (src/task/orchestrator.rs
lines 97-113): `TimerExpired` when the timer wins, nothing when the interrupt
signal wins. -/
def scheduler_step : RaceWinner → List Event
  | RaceWinner.timer => [Event.TimerExpired]
  | RaceWinner.interrupt => []

/-- Events published over a whole run of scheduler iterations, in order. -/
def scheduler_run : List SchedIteration → List Event
  | [] => []
  | it :: rest => scheduler_step it.winner ++ scheduler_run rest

/-- Wake signals the orchestrator can raise (src/task/orchestrator.rs lines
34-74): each arm calls at most one of the `signal_*` helpers. -/
inductive Wake
  | networkUpdate
  | batteryMeasure
  | ledBlink
  | displayUpdate
  | schedulerInterrupt
deriving DecidableEq, Repr

/-- Embedding of the orchestrator's dispatch `match` (src/task/orchestrator.rs
lines 34-74): the wake signals raised for each event.  The match in the source
covers every variant and no arm diverges, so the embedding is a total
function. -/
def dispatch : Event → List Wake
  | Event.Key0Pressed => [Wake.networkUpdate]
  | Event.Key1Pressed => [Wake.batteryMeasure]
  | Event.Key2Pressed => [Wake.ledBlink]
  | Event.TimerExpired => [Wake.networkUpdate]
  | Event.NetworkConnected => []
  | Event.NetworkDisconnected => []
  | Event.ImageDownloaded => [Wake.displayUpdate]
  | Event.ImageDownloadFailed => []
  | Event.SchedulerUpdateRequested => [Wake.schedulerInterrupt]

/-- Sample collection of `measure_battery_percentage` (src/task/power.rs lines
90-103): the array `samples` starts as nine zeroes; the loop stores a
successful read AT ITS LOOP INDEX `i` (`samples[i] = adc_value`) and counts it
in `valid_samples`; a failed read leaves the zero in place.  `reads` is the
list of the nine ADC read outcomes in order (`none` = `Err`).  Returns the
final `samples` array and `valid_samples`. -/
def fill_samples (reads : List (Option Nat)) : List Nat × Nat :=
  (reads.map (fun r => r.getD 0), (reads.filterMap id).length)

/-- Median computation of src/task/power.rs lines 110-112: sort the prefix
`samples[..valid_samples]` and take its element at index `valid_samples / 2`.
Only meaningful when `valid_samples > 0` (the source returns 0% earlier
otherwise). -/
def median_raw (reads : List (Option Nat)) : Nat :=
  let samples := (fill_samples reads).1
  let valid := (fill_samples reads).2
  (List.insertionSort (· ≤ ·) (samples.take valid)).getD (valid / 2) 0

/-- The median the specification describes: sort exactly the successfully
collected samples (failed reads omitted) and pick the middle index.  Stated
from the spec's words, for comparison with `median_raw` above. -/
def median_of_collected_spec (reads : List (Option Nat)) : Nat :=
  let vals := reads.filterMap id
  (List.insertionSort (· ≤ ·) vals).getD (vals.length / 2) 0

/-- ADC count to battery voltage (src/task/power.rs lines 114-119): 3.3 V
reference over 12 bits, then the 3.2 voltage-divider ratio; `f32` modelled by
exact rationals. -/
def adc_to_battery_voltage (median_adc : Nat) : ℚ :=
  (median_adc : ℚ) * 3.3 / 4096 * 3.2

/-- Voltage to percentage (src/task/power.rs lines 126-135): at or above
4.2 V → 100, at or below 3.0 V → 0, linear interpolation strictly between;
branch order as in the source. -/
def voltage_to_percentage (battery_voltage : ℚ) : ℚ :=
  if battery_voltage ≥ 4.2 then 100
  else if battery_voltage ≤ 3 then 0
  else ((battery_voltage - 3) / (4.2 - 3)) * 100

/-- Final clamp and `as u8` cast (src/task/power.rs line 137):
`percentage.clamp(0.0, 100.0) as u8` — clamp to [0,100], then truncate
(floor, as the value is non-negative). -/
def percentage_to_u8 (p : ℚ) : Nat :=
  (Int.floor (min (max p 0) 100)).toNat

/-- Whole measurement (src/task/power.rs lines 83-137) as a function of the
nine ADC read outcomes: 0% when no sample was valid, otherwise the
median-filtered ADC count converted to a percentage. -/
def measure_battery_percentage (reads : List (Option Nat)) : Nat :=
  if (fill_samples reads).2 = 0 then 0
  else percentage_to_u8 (voltage_to_percentage (adc_to_battery_voltage (median_raw reads)))

/-- Observable actions around the battery startup barrier: the battery
monitor's initial measurement, its state write, its `BATTERY_READY_SIGNAL`
signal (src/task/power.rs lines 43-53), and a waiting component's
`wait_battery_ready` return followed by the rest of its startup. -/
inductive BootAction
  | measureBattery
  | writeBatteryState
  | signalBatteryReady
  | waitBatteryReady
  | proceed
deriving DecidableEq, Repr

/-- Startup sequence of `battery_monitor` (src/task/power.rs lines 43-53): one
blocking measurement, then the state write, then — only after the write — the
ready signal. -/
def battery_monitor_startup : List BootAction :=
  [BootAction.measureBattery, BootAction.writeBatteryState,
   BootAction.signalBatteryReady]

/-- Modelled from the spec: the process bootstrap that spawns the task set and
waits on the battery startup barrier is not present under `src/` (`main.rs` is
a stale bootstrap that never calls `wait_battery_ready`; only the declaration
in src/task/power.rs lines 29-32 and the re-export in src/task/mod.rs line 15
exist).  Per the spec, a component calls `wait_battery_ready` and only then
proceeds past its own startup. -/
def boot_sequence_modelled : List BootAction :=
  [BootAction.waitBatteryReady, BootAction.proceed]

/-- The state write performed by the battery monitor before signalling
(src/task/power.rs lines 46-49): store the measured percentage. -/
def battery_startup_state (measured : Nat) (st : AppState) : AppState :=
  { st with battery_percent := measured }

/-- An interleaving of two action sequences: the orderings a cooperative
scheduler can produce for two tasks. -/
inductive Interleave : List BootAction → List BootAction → List BootAction → Prop
  | nil : Interleave [] [] []
  | left {a : BootAction} {xs ys t : List BootAction} :
      Interleave xs ys t → Interleave (a :: xs) ys (a :: t)
  | right {b : BootAction} {xs ys t : List BootAction} :
      Interleave xs ys t → Interleave xs (b :: ys) (b :: t)

/-- Index of the first occurrence of an action in a trace (length of the trace
when absent). -/
def firstIdx (a : BootAction) : List BootAction → Nat
  | [] => 0
  | b :: t => if a = b then 0 else firstIdx a t + 1

/-- The operations that ever write the shared application state
(src/task/network.rs lines 188-256 and src/task/power.rs lines 46-49, 67-70):
setting `wifi_connected`, handling a download result, and storing a battery
measurement. -/
inductive StateOp
  | setWifi (b : Bool)
  | downloadResult (updateIntervalMinutes : Nat) (res : Except String (Nat × Option Nat))
  | batteryMeasurement (reads : List (Option Nat))

/-- Effect of each state-writing operation on the application state. -/
def apply_op : StateOp → AppState → AppState
  | StateOp.setWifi b, st => { st with wifi_connected := b }
  | StateOp.downloadResult m res, st => (handle_download m st res).1
  | StateOp.batteryMeasurement reads, st =>
      { st with battery_percent := measure_battery_percentage reads }

/-! ## Theorems -/

/-- Claim C10: for every image buffer whose length is less than 134,400 bytes,
`download_image` returns the error "Buffer too small" immediately, before
creating an HTTP client or performing any network operation (the action trace
is empty). -/
theorem download_image_buffer_too_small (buffer_len : Nat) (ex : HttpExchange)
    (h : buffer_len < IMAGE_BUFFER_SIZE) :
    download_image buffer_len ex = (Except.error "Buffer too small", []) := by
  simp [download_image, h]

/-- Witness for C10: a 100,000-byte buffer is rejected with no network
action. -/
theorem download_image_buffer_too_small_witness :
    download_image 100000 ⟨true, true, 200, [], true, 0⟩
      = (Except.error "Buffer too small", []) :=
  download_image_buffer_too_small 100000 ⟨true, true, 200, [], true, 0⟩ (by decide)

/-- Claim C1 counterexample: a completed download whose body is 100,000 bytes
(≠ 134,400) is NOT treated as a failure — `download_image` returns `Ok`, the
network manager sets `last_download_success := true` and publishes
`ImageDownloaded`, not `ImageDownloadFailed` (src/network.rs lines 86-93 only
warn on the mismatch). -/
theorem download_size_mismatch_counterexample :
    (download_image 134400 ⟨true, true, 200, [], true, 100000⟩).1
        = Except.ok (100000, none) ∧
    (100000 : Nat) ≠ IMAGE_BUFFER_SIZE ∧
    (handle_download 30 (AppState.new 30)
        (Except.ok (100000, none))).1.last_download_success = true ∧
    (handle_download 30 (AppState.new 30)
        (Except.ok (100000, none))).2 = [Event.ImageDownloaded] :=
  ⟨by rfl, by decide, by rfl, by rfl⟩

/-- Claim C1 (amended): if a completed image download returns a body whose
length differs from the expected 134,400 bytes, the mismatch is only logged as
a warning and the download is still treated as a success: `download_image`
returns `Ok` with the body and the parsed delay header, `last_download_success`
is set to true, and `ImageDownloaded` is published (never
`ImageDownloadFailed`). -/
theorem download_size_mismatch_still_success (ex : HttpExchange)
    (updateIntervalMinutes : Nat) (st : AppState)
    (hreq : ex.request_ok = true) (hsend : ex.send_ok = true)
    (hstatus : ex.status = 200) (hbody : ex.body_ok = true)
    (_hlen : ex.body_len ≠ IMAGE_BUFFER_SIZE) :
    (download_image IMAGE_BUFFER_SIZE ex).1
        = Except.ok (ex.body_len, findNextDelay ex.headers) ∧
    (handle_download updateIntervalMinutes st
        (download_image IMAGE_BUFFER_SIZE ex).1).1.last_download_success = true ∧
    Event.ImageDownloaded ∈ (handle_download updateIntervalMinutes st
        (download_image IMAGE_BUFFER_SIZE ex).1).2 ∧
    Event.ImageDownloadFailed ∉ (handle_download updateIntervalMinutes st
        (download_image IMAGE_BUFFER_SIZE ex).1).2 := by
  have hdl : (download_image IMAGE_BUFFER_SIZE ex).1
      = Except.ok (ex.body_len, findNextDelay ex.headers) := by
    simp [download_image, hreq, hsend, hstatus, hbody]
  refine ⟨hdl, ?_, ?_, ?_⟩ <;> rw [hdl] <;> simp [handle_download]

/-- Witness for the amended C1: body of 100,000 bytes, no delay header,
default 30 minutes. -/
theorem download_size_mismatch_still_success_witness :
    (download_image IMAGE_BUFFER_SIZE ⟨true, true, 200, [], true, 100000⟩).1
        = Except.ok (100000, none) :=
  (download_size_mismatch_still_success ⟨true, true, 200, [], true, 100000⟩
    30 (AppState.new 30) rfl rfl rfl rfl (by decide)).1

/-- Claim C4: the orchestrator's dispatch is total over the `Event` type (the
nine equations below cover every variant, and `dispatch` is a total function
by construction) and raises exactly the specified wake for each event:
Key0Pressed and TimerExpired wake the network update signal, Key1Pressed the
battery-measure signal, Key2Pressed the LED-blink signal, ImageDownloaded the
display update signal, SchedulerUpdateRequested the scheduler interrupt
signal, and NetworkConnected, NetworkDisconnected and ImageDownloadFailed
wake nothing. -/
theorem orchestrator_dispatch_total :
    dispatch Event.Key0Pressed = [Wake.networkUpdate] ∧
    dispatch Event.TimerExpired = [Wake.networkUpdate] ∧
    dispatch Event.Key1Pressed = [Wake.batteryMeasure] ∧
    dispatch Event.Key2Pressed = [Wake.ledBlink] ∧
    dispatch Event.ImageDownloaded = [Wake.displayUpdate] ∧
    dispatch Event.SchedulerUpdateRequested = [Wake.schedulerInterrupt] ∧
    dispatch Event.NetworkConnected = [] ∧
    dispatch Event.NetworkDisconnected = [] ∧
    dispatch Event.ImageDownloadFailed = [] := by
  decide

/-- Claim C8: for the nine valid raw samples [10,50,12,11,9,200,13,10,11], the
median computed by the battery filter (sort all nine, take index 4) is 11,
unaffected by the outlier 200. -/
theorem median_of_nine_outlier :
    median_raw [some 10, some 50, some 12, some 11, some 9, some 200,
                some 13, some 10, some 11] = 11 := by
  decide

/-- Claim C5 (code-bug evaluation): with ADC reads
[Err, Ok 10, Err, Err, Err, Err, Err, Err, Err] exactly k = 1 sample is
collected, the spec's median of the collected samples is 10, but the code's
median is 0: the loop stored the successful sample at its loop index 1, so
`samples[..1]` holds only the stale 0 of the failed read at index 0. -/
theorem battery_median_failing_input :
    (fill_samples [none, some 10, none, none, none, none, none, none, none]).2
        = 1 ∧
    median_raw [none, some 10, none, none, none, none, none, none, none] = 0 ∧
    median_of_collected_spec
        [none, some 10, none, none, none, none, none, none, none] = 10 := by
  decide

/-- Claim C2: after every successful download, inside the single state-store
critical section `handle_download` models, the new delay (server-supplied, or
`UPDATE_INTERVAL_MINUTES * 60` when the header was absent) is stored and
compared against the previously stored `next_update_delay_secs`;
`ImageDownloaded` is always published, and `SchedulerUpdateRequested` is
published after it exactly when the new delay differs from the old one. -/
theorem download_success_delay_events (updateIntervalMinutes : Nat)
    (st : AppState) (body_len : Nat) (server_delay : Option Nat) :
    let new_delay := server_delay.getD (updateIntervalMinutes * 60)
    let out := handle_download updateIntervalMinutes st
        (Except.ok (body_len, server_delay))
    out.1.next_update_delay_secs = new_delay ∧
    out.1.last_download_success = true ∧
    (Event.ImageDownloaded ∈ out.2) ∧
    (Event.SchedulerUpdateRequested ∈ out.2 ↔
        new_delay ≠ st.next_update_delay_secs) ∧
    out.2 = Event.ImageDownloaded ::
      (if new_delay = st.next_update_delay_secs then []
       else [Event.SchedulerUpdateRequested]) := by
  intro new_delay out
  have hnd : (match server_delay with
      | some d => d
      | none => updateIntervalMinutes * 60) = new_delay := by
    cases server_delay <;> rfl
  unfold out
  simp only [handle_download, hnd]
  rcases eq_or_ne new_delay st.next_update_delay_secs with heq | hne
  · simp [heq, bne_self_eq_false]
  · simp [hne, bne_iff_ne.2 (Ne.symm hne), Ne.symm hne]

/-- Claim C3: in every scheduler loop iteration the timer is armed with the
delay freshly re-read from the shared state at the top of that iteration, a
timer win publishes exactly one `TimerExpired`, an interrupt win publishes
nothing, and over any whole run the number of `TimerExpired` events equals the
number of timer wins and nothing but `TimerExpired` is ever published — so no
abandoned wait produces a `TimerExpired`. -/
theorem scheduler_timer_events (trace : List SchedIteration) :
    (scheduler_run trace).count Event.TimerExpired
        = (trace.filter (fun it => it.winner == RaceWinner.timer)).length ∧
    (scheduler_run trace).all (fun e => e == Event.TimerExpired) = true ∧
    scheduler_step RaceWinner.interrupt = [] ∧
    scheduler_step RaceWinner.timer = [Event.TimerExpired] ∧
    (∀ it : SchedIteration, scheduler_wait_duration it = it.state_delay) := by
  refine ⟨?_, ?_, rfl, rfl, fun it => rfl⟩
  · induction trace with
    | nil => rfl
    | cons it rest ih =>
      cases h : it.winner <;>
        simp [scheduler_run, scheduler_step, h, List.filter_cons, ih]
  · induction trace with
    | nil => rfl
    | cons it rest ih =>
      cases h : it.winner <;>
        simp [scheduler_run, scheduler_step, h] <;> simpa using ih

/-- Helper: the clamp-and-truncate step never produces more than 100. -/
theorem percentage_to_u8_le_100 (p : ℚ) : percentage_to_u8 p ≤ 100 := by
  unfold percentage_to_u8
  have h2 : Int.floor (min (max p 0) 100) ≤ (100 : ℤ) := by
    calc Int.floor (min (max p 0) 100) ≤ Int.floor ((100 : ℚ)) :=
          Int.floor_le_floor (min_le_right _ _)
      _ = 100 := by norm_num
  exact Int.toNat_le.mpr (by exact_mod_cast h2)

/-- Helper: the whole battery measurement returns at most 100. -/
theorem measure_battery_percentage_le_100 (reads : List (Option Nat)) :
    measure_battery_percentage reads ≤ 100 := by
  unfold measure_battery_percentage
  split
  · exact Nat.zero_le _
  · exact percentage_to_u8_le_100 _

/-- Claim C7: the voltage-to-percentage conversion maps any voltage at or
below 3.0 V to 0, at or above 4.2 V to 100, and voltages strictly between by
linear interpolation (3.6 V → 50); the percentage always lies in [0, 100], and
the final clamp-and-cast stays at most 100. -/
theorem voltage_percentage_mapping :
    (∀ v : ℚ, v ≤ 3 → voltage_to_percentage v = 0) ∧
    (∀ v : ℚ, 4.2 ≤ v → voltage_to_percentage v = 100) ∧
    (∀ v : ℚ, 3 < v → v < 4.2 →
        voltage_to_percentage v = (v - 3) / (4.2 - 3) * 100) ∧
    voltage_to_percentage 3.6 = 50 ∧
    (∀ v : ℚ, 0 ≤ voltage_to_percentage v ∧ voltage_to_percentage v ≤ 100) ∧
    (∀ p : ℚ, percentage_to_u8 p ≤ 100) := by
  have hlow : ∀ v : ℚ, v ≤ 3 → voltage_to_percentage v = 0 := by
    intro v hv
    unfold voltage_to_percentage
    rw [if_neg (by intro h; exact absurd (le_trans h hv) (by norm_num)),
        if_pos hv]
  have hhigh : ∀ v : ℚ, 4.2 ≤ v → voltage_to_percentage v = 100 := by
    intro v hv
    unfold voltage_to_percentage
    rw [if_pos hv]
  have hmid : ∀ v : ℚ, 3 < v → v < 4.2 →
      voltage_to_percentage v = (v - 3) / (4.2 - 3) * 100 := by
    intro v h1 h2
    unfold voltage_to_percentage
    rw [if_neg (not_le.mpr h2), if_neg (not_le.mpr h1)]
  refine ⟨hlow, hhigh, hmid, ?_, ?_, percentage_to_u8_le_100⟩
  · rw [hmid 3.6 (by norm_num) (by norm_num)]
    norm_num
  · intro v
    unfold voltage_to_percentage
    split_ifs with h1 h2
    · norm_num
    · norm_num
    · push_neg at h1 h2
      constructor
      · exact mul_nonneg (div_nonneg (by linarith) (by norm_num)) (by norm_num)
      · rw [div_mul_eq_mul_div, div_le_iff₀ (by norm_num : (0:ℚ) < 4.2 - 3)]
        linarith

/-- Witness for C7: 2.5 V → 0, 4.5 V → 100, 3.9 V interpolates, bounds at a
sample point, clamp of 150 stays at most 100. -/
theorem voltage_percentage_mapping_witness :
    voltage_to_percentage 2.5 = 0 ∧
    voltage_to_percentage 4.5 = 100 ∧
    voltage_to_percentage 3.9 = (3.9 - 3) / (4.2 - 3) * 100 ∧
    voltage_to_percentage 3.6 = 50 ∧
    (0 ≤ voltage_to_percentage 3.9 ∧ voltage_to_percentage 3.9 ≤ 100) ∧
    percentage_to_u8 150 ≤ 100 :=
  ⟨voltage_percentage_mapping.1 2.5 (by norm_num),
   voltage_percentage_mapping.2.1 4.5 (by norm_num),
   voltage_percentage_mapping.2.2.1 3.9 (by norm_num) (by norm_num),
   voltage_percentage_mapping.2.2.2.1,
   voltage_percentage_mapping.2.2.2.2.1 3.9,
   voltage_percentage_mapping.2.2.2.2.2 150⟩

/-- Claim C9: `battery_percent` starts at 0 at boot, every battery
measurement yields a value at most 100, and the invariant
`battery_percent ≤ 100` is preserved by every sequence of state-writing
operations starting from the boot state. -/
theorem battery_percent_invariant (defaultMinutes : Nat) (ops : List StateOp) :
    (AppState.new defaultMinutes).battery_percent = 0 ∧
    (∀ reads, measure_battery_percentage reads ≤ 100) ∧
    (ops.foldl (fun st op => apply_op op st)
        (AppState.new defaultMinutes)).battery_percent ≤ 100 := by
  refine ⟨rfl, measure_battery_percentage_le_100, ?_⟩
  have hstep : ∀ (st : AppState), st.battery_percent ≤ 100 →
      ∀ op : StateOp, (apply_op op st).battery_percent ≤ 100 := by
    intro st h op
    cases op with
    | setWifi b => simpa [apply_op] using h
    | downloadResult m res =>
      cases res with
      | ok v =>
        obtain ⟨len, server_delay⟩ := v
        cases server_delay <;> simpa [apply_op, handle_download] using h
      | error e => simpa [apply_op, handle_download] using h
    | batteryMeasurement reads =>
      simpa [apply_op] using measure_battery_percentage_le_100 reads
  have hfold : ∀ (l : List StateOp) (st : AppState), st.battery_percent ≤ 100 →
      (l.foldl (fun s o => apply_op o s) st).battery_percent ≤ 100 := by
    intro l
    induction l with
    | nil => intro st h; exact h
    | cons o t ih => intro st h; exact ih _ (hstep st h o)
  exact hfold ops _ (by norm_num [AppState.new])

/-- Claim C6: in every cooperative interleaving of the battery monitor's
startup (src/task/power.rs lines 43-53) with the spec-modelled waiting
component, if the barrier is respected (the wait returns only after the ready
signal), then the initial measurement happens before the state write, the
state write happens before the ready signal, and the waiting component
proceeds only after the state write; moreover the startup state write stores
the measured percentage. -/
theorem battery_startup_barrier (t : List BootAction)
    (h : Interleave battery_monitor_startup boot_sequence_modelled t) :
    (firstIdx BootAction.signalBatteryReady t
        < firstIdx BootAction.waitBatteryReady t →
      firstIdx BootAction.measureBattery t
          < firstIdx BootAction.writeBatteryState t ∧
      firstIdx BootAction.writeBatteryState t
          < firstIdx BootAction.signalBatteryReady t ∧
      firstIdx BootAction.writeBatteryState t
          < firstIdx BootAction.proceed t) ∧
    (∀ (measured : Nat) (st : AppState),
      (battery_startup_state measured st).battery_percent = measured) := by
  refine ⟨?_, fun measured st => rfl⟩
  simp only [battery_monitor_startup, boot_sequence_modelled] at h
  cases h
  all_goals (rename_i h; cases h)
  all_goals (rename_i h; cases h)
  all_goals (rename_i h; cases h)
  all_goals (rename_i h; cases h)
  all_goals (rename_i h; cases h)
  all_goals decide

/-- Witness for C6: the sequential trace measure → write → signal → wait →
proceed respects the barrier, and in it the write precedes the proceed. -/
theorem battery_startup_barrier_witness :
    firstIdx BootAction.measureBattery
        (battery_monitor_startup ++ boot_sequence_modelled)
      < firstIdx BootAction.writeBatteryState
        (battery_monitor_startup ++ boot_sequence_modelled) ∧
    firstIdx BootAction.writeBatteryState
        (battery_monitor_startup ++ boot_sequence_modelled)
      < firstIdx BootAction.signalBatteryReady
        (battery_monitor_startup ++ boot_sequence_modelled) ∧
    firstIdx BootAction.writeBatteryState
        (battery_monitor_startup ++ boot_sequence_modelled)
      < firstIdx BootAction.proceed
        (battery_monitor_startup ++ boot_sequence_modelled) :=
  (battery_startup_barrier (battery_monitor_startup ++ boot_sequence_modelled)
    (Interleave.left (Interleave.left (Interleave.left
      (Interleave.right (Interleave.right Interleave.nil)))))).1 (by decide)

end EInkWeather
